import Mathlib

/-!
fastify-oracle: the execution layer and the plugin registration.

A shallow embedding of `src/index.js`.

* Every `async` function is a state transformer that returns either the value the
  promise resolves with or the value it rejects with, together with the new state
  (`Eff`).  An `await` is a bind; a rejected `await` is a throw at that point.  Every
  awaited promise is taken to settle.
* The collaborators (the oracledb driver, the unit of work handed to `transact`, the
  fastify instance) are parameters: their outcomes are arbitrary functions of an opaque
  world state.
* The calls the module makes on its collaborators are recorded, in order, in a log that
  is part of the state.  The log survives a throw.
-/

namespace FastifyOracle

/-! ## Thrown values and the effect type -/

/-- A value carried by a JavaScript `throw` (or a rejected promise).  `external` is an
error object produced by a collaborator (driver, unit of work), told apart by an identity;
`created` is an error built in this module with `new Error(message)`. -/
inductive Thrown where
  | external (ident : Nat) (message : String)
  | created (message : String)
  deriving DecidableEq, Repr

/-- The `message` property of a thrown error. -/
def Thrown.message : Thrown → String
  | .external _ m => m
  | .created m => m

/-- An `async` computation over a state `S`: it settles with a value or with a thrown
error, and the state it leaves behind is kept in both cases. -/
def Eff (S α : Type) : Type := S → Except Thrown α × S

namespace Eff

variable {S α β : Type}

/-- Run a computation from a state. -/
def run (m : Eff S α) (s : S) : Except Thrown α × S := m s

/-- The computation `return a`. -/
def ret (a : α) : Eff S α := fun s => (.ok a, s)

/-- The computation `throw e`. -/
def throw (e : Thrown) : Eff S α := fun s => (.error e, s)

/-- Sequencing `const a = await m; f a`. -/
def andThen (m : Eff S α) (f : α → Eff S β) : Eff S β := fun s =>
  match m s with
  | (.ok a, s1) => f a s1
  | (.error e, s1) => (.error e, s1)

/-- The statement `try { body } catch (err) { handler err }`. -/
def tryCatch (body : Eff S α) (handler : Thrown → Eff S α) : Eff S α := fun s =>
  match body s with
  | (.ok a, s1) => (.ok a, s1)
  | (.error e, s1) => handler e s1

/-- The statement `try { body } finally { fin }`: `fin` runs on every exit of `body`; the
completion of `body` stands unless `fin` itself throws. -/
def tryFinally (body : Eff S α) (fin : Eff S Unit) : Eff S α := fun s =>
  match body s with
  | (r, s1) =>
    match fin s1 with
    | (.ok _, s2) => (r, s2)
    | (.error e, s2) => (.error e, s2)

instance : Monad (Eff S) where
  pure := ret
  bind := andThen

end Eff

/-! ## The driver seen from `query` and `transact` -/

/-- Bind parameters of a statement. -/
abbrev Binds := List String

/-- Execution options of a statement. -/
abbrev ExecOptions := List (String × String)

/-- A call the execution layer makes on its collaborators.  Connections are named by a
number.  An argument that is not passed (`undefined`) is `none`. -/
inductive Call where
  | getConnection
  | execute (conn : Nat) (sql : String) (values : Option Binds) (options : Option ExecOptions)
  | fn (conn : Nat)
  | close (conn : Nat)
  deriving DecidableEq, Repr

/-- Whether a call is a `conn.close()`. -/
def Call.isClose : Call → Bool
  | .close _ => true
  | _ => false

/-- The receiver `this` of `query` and `transact`, as far as they use it: `this.pool`
with its `getConnection`, and the connections it hands out with `execute` and `close`.
`σ` is the opaque state of the driver and the database, `ρ` the type of JavaScript
values.  `conn.close()` returns a promise; neither function awaits it, so only the fact
that it was started is visible to them. -/
structure Driver (σ ρ : Type) where
  getConnection : σ → Except Thrown Nat × σ
  execute : Nat → String → Option Binds → Option ExecOptions → σ → Except Thrown ρ × σ
  close : Nat → σ → σ

/-- The unit of work passed to `transact`: called with the connection, it settles with a
value or an error and may change the world. -/
abbrev UnitOfWork (σ ρ : Type) := Nat → σ → Except Thrown ρ × σ

/-- The state threaded through the execution layer: the world and the log of calls. -/
abbrev ExecState (σ : Type) := σ × List Call

section ExecutionLayer

variable {σ ρ : Type}

/-- The expression `await this.pool.getConnection()`. -/
def awaitGetConnection (d : Driver σ ρ) : Eff (ExecState σ) Nat := fun s =>
  match d.getConnection s.1 with
  | (r, w) => (r, (w, s.2 ++ [Call.getConnection]))

/-- The expression `await conn.execute(sql, values, options)`. -/
def awaitExecute (d : Driver σ ρ) (conn : Nat) (sql : String) (values : Option Binds)
    (options : Option ExecOptions) : Eff (ExecState σ) ρ := fun s =>
  match d.execute conn sql values options s.1 with
  | (r, w) => (r, (w, s.2 ++ [Call.execute conn sql values options]))

/-- The expression `await fn(conn)`. -/
def awaitFn (fn : UnitOfWork σ ρ) (conn : Nat) : Eff (ExecState σ) ρ := fun s =>
  match fn conn s.1 with
  | (r, w) => (r, (w, s.2 ++ [Call.fn conn]))

/-- The statement `conn.close();` (the promise it returns is dropped). -/
def connClose (d : Driver σ ρ) (conn : Nat) : Eff (ExecState σ) Unit := fun s =>
  (.ok (), (d.close conn s.1, s.2 ++ [Call.close conn]))

/-- The function `query(sql, values = [], options = {})` of `src/index.js`.  A parameter
that is not passed takes its default: `values.getD []`, `options.getD []`. -/
def query (d : Driver σ ρ) (sql : String) (values : Option Binds)
    (options : Option ExecOptions) : Eff (ExecState σ) ρ := do
  let conn ← awaitGetConnection d
  Eff.tryFinally
    (do
      let result ← awaitExecute d conn sql (some (values.getD [])) (some (options.getD []))
      return result)
    (connClose d conn)

/-- The function `transact(fn)` of `src/index.js`: the `try` block, its `catch (err)` and
its `finally`. -/
def transact (d : Driver σ ρ) (fn : UnitOfWork σ ρ) : Eff (ExecState σ) ρ := do
  let conn ← awaitGetConnection d
  Eff.tryFinally
    (Eff.tryCatch
      (do
        let _ ← awaitExecute d conn "BEGIN" none none
        let result ← awaitFn fn conn
        let _ ← awaitExecute d conn "COMMIT" none none
        return result)
      (fun err => do
        let _ ← awaitExecute d conn "ROLLBACK" none none
        Eff.throw err))
    (connClose d conn)

end ExecutionLayer

/-! ## The plugin: options, the fastify instance, the oracledb module -/

/-- Attributes handed to `oracledb.createPool`. -/
abbrev PoolAttributes := List (String × String)

/-- A truthy value of `options.client`: a pool (an object that has `oracledb.Pool.prototype`
in its prototype chain), named by a number, or anything else. -/
inductive Client where
  | pool (p : Nat)
  | other
  deriving DecidableEq, Repr

/-- The plugin options.  `none` stands for a property that is absent (or holds a falsy
value that is not a string); a string property is falsy when it is empty. -/
structure Options where
  name : Option String
  client : Option Client
  poolAlias : Option String
  pool : Option PoolAttributes
  drainTime : Option Nat
  outFormat : Option String
  fetchAsString : Option (List String)
  deriving DecidableEq, Repr

/-- JavaScript truthiness of a string-valued property. -/
def truthy : Option String → Bool
  | some s => s != ""
  | none => false

/-- The keys of the object literal `oracle` built in `decorateFastifyInstance`. -/
def oracleKeys : List String := ["getConnection", "pool", "query", "transact", "db"]

/-- The properties every plain object inherits from `Object.prototype`. -/
def objectPrototypeKeys : List String :=
  ["constructor", "__defineGetter__", "__defineSetter__", "hasOwnProperty",
   "__lookupGetter__", "__lookupSetter__", "isPrototypeOf", "propertyIsEnumerable",
   "toString", "valueOf", "__proto__", "toLocaleString"]

/-- The object stored at `fastify.oracle`: the `oracle` object of the registration that
decorated the instance (built around `pool`), and the properties assigned to it afterwards by
`fastify.oracle[options.name] = oracle`, each with the pool of its own `oracle` object. -/
structure OracleObject where
  pool : Nat
  named : List (String × Nat)
  deriving DecidableEq, Repr

/-- Truthiness of `fastify.oracle[key]`: the five own keys and the inherited ones hold
functions or objects, an assigned name holds an `oracle` object. -/
def OracleObject.hasTruthy (o : OracleObject) (key : String) : Bool :=
  oracleKeys.contains key || objectPrototypeKeys.contains key || (o.named.lookup key).isSome

/-- The closure `async (_, done) => { await pool.close(options.drainTime); done(); }`
with what it captures. -/
structure OnCloseHook where
  pool : Nat
  drainTime : Option Nat
  deriving DecidableEq, Repr

/-- The fastify instance as the plugin sees it: the `oracle` decoration (absent or the
object this plugin put there) and the `onClose` hooks added so far. -/
structure Fastify where
  oracle : Option OracleObject
  onClose : List OnCloseHook
  deriving DecidableEq, Repr

/-- A call the plugin function makes on the oracledb module or on the fastify instance. -/
inductive RegCall where
  | getPool (poolAlias : String)
  | createPool (attrs : PoolAttributes)
  | setOutFormat (value : Option Nat)
  | setFetchAsString (values : List (Option Nat))
  | decorate (pool : Nat)
  | addHook (pool : Nat) (drainTime : Option Nat)
  deriving DecidableEq, Repr

/-- The `oracledb` module as the plugin uses it, over an opaque world `σ`.
`upperMember s` is the value of `oracledb[s.toUpperCase()]` (`none` for `undefined`);
the two setters are the assignments to `oracledb.outFormat` and `oracledb.fetchAsString`,
which the driver may reject. -/
structure Oracledb (σ : Type) where
  getPool : String → σ → Except Thrown Nat × σ
  createPool : PoolAttributes → σ → Except Thrown Nat × σ
  upperMember : String → Option Nat
  setOutFormat : Option Nat → σ → Except Thrown Unit × σ
  setFetchAsString : List (Option Nat) → σ → Except Thrown Unit × σ

/-- The state threaded through a registration. -/
structure RegState (σ : Type) where
  world : σ
  fastify : Fastify
  calls : List RegCall

section Registration

variable {σ : Type}

/-- The expression `fastify.oracle`. -/
def readOracle : Eff (RegState σ) (Option OracleObject) := fun s => (.ok s.fastify.oracle, s)

/-- The call `fastify.decorate('oracle', oracle)` with a fresh `oracle` object. -/
def fastifyDecorate (pool : Nat) : Eff (RegState σ) Unit := fun s =>
  (.ok (), { s with
    fastify := { s.fastify with oracle := some { pool := pool, named := [] } }
    calls := s.calls ++ [RegCall.decorate pool] })

/-- The assignment `fastify.oracle[name] = oracle`. -/
def assignNamed (name : String) (pool : Nat) : Eff (RegState σ) Unit := fun s =>
  (.ok (), { s with
    fastify := { s.fastify with
      oracle := s.fastify.oracle.map fun o => { o with named := o.named ++ [(name, pool)] } } })

/-- The call `fastify.addHook('onClose', ...)`. -/
def fastifyAddHook (pool : Nat) (drainTime : Option Nat) : Eff (RegState σ) Unit := fun s =>
  (.ok (), { s with
    fastify := { s.fastify with
      onClose := s.fastify.onClose ++ [{ pool := pool, drainTime := drainTime }] }
    calls := s.calls ++ [RegCall.addHook pool drainTime] })

/-- The error thrown for a name that is taken. -/
def nameTaken (name : String) : Thrown :=
  Thrown.created ("fastify-oracle: connection name \"" ++ name ++ "\" has already been registered")

/-- The function `decorateFastifyInstance(pool, fastify, options)` of `src/index.js`.
The members of the `oracle` object literal (`query.bind(pool)` and the others) are built
but not called here; the object is represented by the pool it was built around. -/
def decorateFastifyInstance (pool : Nat) (options : Options) : Eff (RegState σ) Unit := do
  if truthy options.name then
    let name := options.name.getD ""
    if (← readOracle).isNone then
      fastifyDecorate pool
    if ((← readOracle).map fun o => o.hasTruthy name) = some true then
      Eff.throw (nameTaken name)
    else
      assignNamed name pool
  else
    if (← readOracle).isSome then
      Eff.throw (Thrown.created "fastify-oracle has already been registered")
    else
      fastifyDecorate pool
  fastifyAddHook pool options.drainTime

/-- The expression `await oracledb.getPool(options.poolAlias)`. -/
def awaitGetPool (db : Oracledb σ) (poolAlias : String) : Eff (RegState σ) Nat := fun s =>
  match db.getPool poolAlias s.world with
  | (r, w) => (r, { s with world := w, calls := s.calls ++ [RegCall.getPool poolAlias] })

/-- The expression `await oracledb.createPool(options.pool)`. -/
def awaitCreatePool (db : Oracledb σ) (attrs : PoolAttributes) : Eff (RegState σ) Nat := fun s =>
  match db.createPool attrs s.world with
  | (r, w) => (r, { s with world := w, calls := s.calls ++ [RegCall.createPool attrs] })

/-- The assignment `oracledb.outFormat = oracledb[options.outFormat.toUpperCase()]`. -/
def assignOutFormat (db : Oracledb σ) (outFormat : String) : Eff (RegState σ) Unit := fun s =>
  match db.setOutFormat (db.upperMember outFormat) s.world with
  | (r, w) => (r, { s with
      world := w, calls := s.calls ++ [RegCall.setOutFormat (db.upperMember outFormat)] })

/-- The assignment
`oracledb.fetchAsString = options.fetchAsString.map((t) => oracledb[t.toUpperCase()])`. -/
def assignFetchAsString (db : Oracledb σ) (types : List String) : Eff (RegState σ) Unit :=
  fun s =>
  match db.setFetchAsString (types.map db.upperMember) s.world with
  | (r, w) => (r, { s with
      world := w, calls := s.calls ++ [RegCall.setFetchAsString (types.map db.upperMember)] })

/-- The plugin function `fastifyOracleDB(fastify, options)` of `src/index.js`.

In the `poolAlias` branch the `try` block is
`const pool = await oracledb.getPool(...); return decorateFastifyInstance(...)`: the promise
of the `async` function `decorateFastifyInstance` is returned without `await`, so its
rejection does not pass through the `catch`; only a failure of `getPool` does. -/
def fastifyOracleDB (db : Oracledb σ) (options : Options) : Eff (RegState σ) Unit := do
  match options.client with
  | some (Client.pool p) => decorateFastifyInstance p options
  | some Client.other =>
    Eff.throw (Thrown.created
      "fastify-oracle: supplied client must be an instance of oracledb.pool")
  | none =>
    if truthy options.poolAlias then
      let pool ← Eff.tryCatch (awaitGetPool db (options.poolAlias.getD "")) fun err =>
        Eff.throw (Thrown.created
          ("fastify-oracle: could not get pool alias - " ++ err.message))
      decorateFastifyInstance pool options
    else
      match options.pool with
      | none =>
        Eff.throw (Thrown.created
          "fastify-oracle: must supply options.pool oracledb pool options")
      | some attrs =>
        if truthy options.outFormat then
          assignOutFormat db (options.outFormat.getD "")
        match options.fetchAsString with
        | some types => assignFetchAsString db types
        | none => pure ()
        let pool ← awaitCreatePool db attrs
        decorateFastifyInstance pool options

end Registration

/-! ## The shutdown hook -/

/-- A call the `onClose` hook makes. -/
inductive HookCall where
  | poolClose (pool : Nat) (drainTime : Option Nat)
  | done
  deriving DecidableEq, Repr

section Shutdown

variable {σ : Type}

/-- The expression `await pool.close(options.drainTime)`. -/
def awaitPoolClose (poolClose : Nat → Option Nat → σ → Except Thrown Unit × σ)
    (pool : Nat) (drainTime : Option Nat) : Eff (σ × List HookCall) Unit := fun s =>
  match poolClose pool drainTime s.1 with
  | (r, w) => (r, (w, s.2 ++ [HookCall.poolClose pool drainTime]))

/-- The call `done()`. -/
def callDone : Eff (σ × List HookCall) Unit := fun s => (.ok (), (s.1, s.2 ++ [HookCall.done]))

/-- Running the hook body `await pool.close(options.drainTime); done();`. -/
def OnCloseHook.runHook (h : OnCloseHook)
    (poolClose : Nat → Option Nat → σ → Except Thrown Unit × σ) :
    Eff (σ × List HookCall) Unit := do
  awaitPoolClose poolClose h.pool h.drainTime
  callDone

end Shutdown

/-! ## Concrete collaborators for evaluation -/

/-- A concrete driver for evaluation: its world is the history of what reached the
database; connection 7 is always handed out; a statement listed in `failing` throws the
error listed with it, every other statement returns 0. -/
def scriptedDriver (failing : List (String × Thrown)) : Driver (List String) Nat where
  getConnection := fun w => (.ok 7, w)
  execute := fun _ sql _ _ w =>
    match failing.lookup sql with
    | some e => (.error e, w ++ [sql])
    | none => (.ok 0, w ++ [sql])
  close := fun _ w => w ++ ["close"]

/-- A unit of work that inserts one row and returns 42. -/
def insertWork : UnitOfWork (List String) Nat := fun _ w => (.ok 42, w ++ ["INSERT"])

/-- A unit of work whose insert violates a constraint. -/
def failingWork : UnitOfWork (List String) Nat :=
  fun _ w => (.error (Thrown.external 1 "ORA-00001: unique constraint violated"), w)

/-- A driver whose pool hands out no connection. -/
def exhaustedDriver : Driver (List String) Nat where
  getConnection := fun w => (.error (Thrown.external 8 "NJS-040: connection request timeout"), w)
  execute := fun _ sql _ _ w => (.ok 0, w ++ [sql])
  close := fun _ w => w ++ ["close"]

/-- The number of pool sources supplied among `options.client`, `options.poolAlias` and
`options.pool`. -/
def suppliedCount (options : Options) : Nat :=
  (if options.client.isSome then 1 else 0) + (if truthy options.poolAlias then 1 else 0) +
    (if options.pool.isSome then 1 else 0)

/-- Options with no property set. -/
def noOptions : Options :=
  { name := none, client := none, poolAlias := none, pool := none, drainTime := none,
    outFormat := none, fetchAsString := none }

/-- A fastify instance before any registration, with an opaque world `w`. -/
def freshState {σ : Type} (w : σ) : RegState σ :=
  { world := w, fastify := { oracle := none, onClose := [] }, calls := [] }

/-- A concrete oracledb module for evaluation: its world counts the pools created; the
alias "main" is pool 1, any other alias is unknown; the n-th pool created is pool
100 + n; the setters accept every value. -/
def scriptedOracledb : Oracledb Nat where
  getPool := fun poolAlias w =>
    if poolAlias = "main" then (.ok 1, w)
    else (.error (Thrown.external 9 "NJS-047: pool alias not found"), w)
  createPool := fun _ w => (.ok (100 + w), w + 1)
  upperMember := fun key => if key.toUpper = "OBJECT" then some 4002 else none
  setOutFormat := fun _ w => (.ok (), w)
  setFetchAsString := fun _ w => (.ok (), w)

/-- A stricter oracledb module for evaluation: aliases as in `scriptedOracledb`;
`createPool` rejects empty attributes; `oracledb.OBJECT` is 4002 and `oracledb.NUMBER`
is 2010, any other member is `undefined`; the setters reject `undefined`. -/
def strictOracledb : Oracledb Nat where
  getPool := fun poolAlias w =>
    if poolAlias = "main" then (.ok 1, w)
    else (.error (Thrown.external 9 "NJS-047: pool alias not found"), w)
  createPool := fun attrs w =>
    if attrs.isEmpty then (.error (Thrown.external 10 "NJS-007: invalid value for poolAttrs"), w)
    else (.ok (100 + w), w + 1)
  upperMember := fun key =>
    if key = "object" ∨ key = "OBJECT" then some 4002
    else if key = "number" ∨ key = "NUMBER" then some 2010
    else none
  setOutFormat := fun value w =>
    match value with
    | some _ => (.ok (), w)
    | none => (.error (Thrown.external 11 "NJS-004: invalid value for property outFormat"), w)
  setFetchAsString := fun values w =>
    if values.all Option.isSome then (.ok (), w)
    else (.error (Thrown.external 12 "NJS-004: invalid value for property fetchAsString"), w)

/-- The state after one registration under the name "db1" of pool 100, created by
`scriptedOracledb`. -/
def registeredDb1 : RegState Nat :=
  { world := 1
    fastify := { oracle := some { pool := 100, named := [("db1", 100)] },
                 onClose := [{ pool := 100, drainTime := none }] }
    calls := [] }

/-- A pool whose `close` resolves once it has drained: the world records the drain time
it was given. -/
def drainingClose : Nat → Option Nat → List (Option Nat) → Except Thrown Unit × List (Option Nat) :=
  fun _ drainTime w => (.ok (), w ++ [drainTime])

section ExecutionLayerProofs

variable {σ ρ : Type}

/-- C2. When `getConnection`, `BEGIN`, `fn(conn)` and `COMMIT` all succeed, `transact`
makes exactly the calls `getConnection`, `execute('BEGIN')`, `fn(conn)`,
`execute('COMMIT')`, `close` in this order (so no `ROLLBACK` is issued) and resolves with
the value `fn` returned. -/
theorem transact_commit_path (d : Driver σ ρ) (fn : UnitOfWork σ ρ) (w0 w1 w2 w3 w4 : σ)
    (conn : Nat) (b c r : ρ)
    (hconn : d.getConnection w0 = (.ok conn, w1))
    (hbegin : d.execute conn "BEGIN" none none w1 = (.ok b, w2))
    (hfn : fn conn w2 = (.ok r, w3))
    (hcommit : d.execute conn "COMMIT" none none w3 = (.ok c, w4)) :
    (transact d fn).run (w0, []) =
      (.ok r, (d.close conn w4,
        [Call.getConnection, Call.execute conn "BEGIN" none none, Call.fn conn,
         Call.execute conn "COMMIT" none none, Call.close conn])) := by
  simp [transact, Eff.run, Eff.tryFinally, Eff.tryCatch, bind, Eff.andThen, pure, Eff.ret,
    awaitGetConnection, awaitExecute, awaitFn, connClose, hconn, hbegin, hfn, hcommit]

theorem transact_commit_path_witness :
    (transact (scriptedDriver []) insertWork).run ([], []) =
      (.ok 42, (["BEGIN", "INSERT", "COMMIT", "close"],
        [Call.getConnection, Call.execute 7 "BEGIN" none none, Call.fn 7,
         Call.execute 7 "COMMIT" none none, Call.close 7])) :=
  transact_commit_path (scriptedDriver []) insertWork [] [] ["BEGIN"] ["BEGIN", "INSERT"]
    ["BEGIN", "INSERT", "COMMIT"] 7 0 0 42 rfl rfl rfl rfl

/-- C1. When `getConnection` and `BEGIN` succeed, then `fn(conn)` fails with `e`, or
`fn(conn)` succeeds and `COMMIT` fails with `e`, and `ROLLBACK` succeeds: `transact`
rejects with exactly `e`, and the calls it made end with `execute('ROLLBACK')` on the same
connection followed by `close`, right after the call that failed. -/
theorem transact_rollback_path (d : Driver σ ρ) (fn : UnitOfWork σ ρ) (w0 w1 w2 w3 w4 : σ)
    (conn : Nat) (b x : ρ) (e : Thrown)
    (hconn : d.getConnection w0 = (.ok conn, w1))
    (hbegin : d.execute conn "BEGIN" none none w1 = (.ok b, w2))
    (hfail : fn conn w2 = (.error e, w3) ∨
      ∃ r w, fn conn w2 = (.ok r, w) ∧ d.execute conn "COMMIT" none none w = (.error e, w3))
    (hrollback : d.execute conn "ROLLBACK" none none w3 = (.ok x, w4)) :
    ∃ failed : List Call,
      (failed = [Call.fn conn] ∨
        failed = [Call.fn conn, Call.execute conn "COMMIT" none none]) ∧
      (transact d fn).run (w0, []) =
        (.error e, (d.close conn w4,
          [Call.getConnection, Call.execute conn "BEGIN" none none] ++ failed ++
            [Call.execute conn "ROLLBACK" none none, Call.close conn])) := by
  rcases hfail with hfn | ⟨r, w, hfn, hcommit⟩
  · refine ⟨_, Or.inl rfl, ?_⟩
    simp [transact, Eff.run, Eff.tryFinally, Eff.tryCatch, bind, Eff.andThen, Eff.throw,
      awaitGetConnection, awaitExecute, awaitFn, connClose, hconn, hbegin, hfn, hrollback]
  · refine ⟨_, Or.inr rfl, ?_⟩
    simp [transact, Eff.run, Eff.tryFinally, Eff.tryCatch, bind, Eff.andThen, Eff.throw,
      awaitGetConnection, awaitExecute, awaitFn, connClose, hconn, hbegin, hfn, hcommit,
      hrollback]

theorem transact_rollback_path_witness :
    ∃ failed : List Call,
      (failed = [Call.fn 7] ∨ failed = [Call.fn 7, Call.execute 7 "COMMIT" none none]) ∧
      (transact (scriptedDriver []) failingWork).run ([], []) =
        (.error (Thrown.external 1 "ORA-00001: unique constraint violated"),
          (["BEGIN", "ROLLBACK", "close"],
            [Call.getConnection, Call.execute 7 "BEGIN" none none] ++ failed ++
              [Call.execute 7 "ROLLBACK" none none, Call.close 7])) :=
  transact_rollback_path (scriptedDriver []) failingWork [] [] ["BEGIN"] ["BEGIN"]
    ["BEGIN", "ROLLBACK"] 7 0 0 (Thrown.external 1 "ORA-00001: unique constraint violated")
    rfl rfl (Or.inl rfl) rfl

/-- C3. When `getConnection` succeeds with `conn`, `query` makes exactly the calls
`getConnection`, `conn.execute(sql, values, options)`, `conn.close()` in this order, and
settles with whatever `execute` settled with, be it a result or an error. -/
theorem query_acquire_execute_release (d : Driver σ ρ) (sql : String) (values : Option Binds)
    (options : Option ExecOptions) (w0 w1 : σ) (conn : Nat)
    (hconn : d.getConnection w0 = (.ok conn, w1)) :
    (query d sql values options).run (w0, []) =
      ((d.execute conn sql (some (values.getD [])) (some (options.getD [])) w1).1,
        (d.close conn
          (d.execute conn sql (some (values.getD [])) (some (options.getD [])) w1).2,
         [Call.getConnection,
          Call.execute conn sql (some (values.getD [])) (some (options.getD [])),
          Call.close conn])) := by
  rcases h : d.execute conn sql (some (values.getD [])) (some (options.getD [])) w1 with
    ⟨_ | _, w⟩ <;>
  simp [query, Eff.run, Eff.tryFinally, bind, Eff.andThen, pure, Eff.ret,
    awaitGetConnection, awaitExecute, connClose, hconn, h]

theorem query_acquire_execute_release_witness :
    (query (scriptedDriver [("SELECT 1 FROM DUAL", Thrown.external 2 "ORA-03113")])
        "SELECT 1 FROM DUAL" none none).run ([], []) =
      (.error (Thrown.external 2 "ORA-03113"),
        (["SELECT 1 FROM DUAL", "close"],
         [Call.getConnection, Call.execute 7 "SELECT 1 FROM DUAL" (some []) (some []),
          Call.close 7])) :=
  query_acquire_execute_release
    (scriptedDriver [("SELECT 1 FROM DUAL", Thrown.external 2 "ORA-03113")])
    "SELECT 1 FROM DUAL" none none [] [] 7 rfl

/-- C4. When `getConnection` succeeds with `conn`, then whatever `BEGIN`, `fn(conn)`,
`COMMIT` and `ROLLBACK` do, `transact` calls `close` exactly once, on `conn`, and that
call is the last one it makes: no call, hence no `execute`, follows it. -/
theorem transact_close_once_last (d : Driver σ ρ) (fn : UnitOfWork σ ρ) (w0 w1 : σ)
    (conn : Nat) (hconn : d.getConnection w0 = (.ok conn, w1)) :
    ((transact d fn).run (w0, [])).2.2.filter Call.isClose = [Call.close conn] ∧
    ((transact d fn).run (w0, [])).2.2.getLast? = some (Call.close conn) := by
  rcases hb : d.execute conn "BEGIN" none none w1 with ⟨_ | _, w2⟩
  · rcases hr : d.execute conn "ROLLBACK" none none w2 with ⟨_ | _, w3⟩ <;>
    simp [transact, Eff.run, Eff.tryFinally, Eff.tryCatch, bind, Eff.andThen, pure, Eff.ret,
      Eff.throw, awaitGetConnection, awaitExecute, awaitFn, connClose, Call.isClose,
      hconn, hb, hr]
  · rcases hf : fn conn w2 with ⟨_ | _, w3⟩
    · rcases hr : d.execute conn "ROLLBACK" none none w3 with ⟨_ | _, w4⟩ <;>
      simp [transact, Eff.run, Eff.tryFinally, Eff.tryCatch, bind, Eff.andThen, pure,
        Eff.ret, Eff.throw, awaitGetConnection, awaitExecute, awaitFn, connClose,
        Call.isClose, hconn, hb, hf, hr]
    · rcases hc : d.execute conn "COMMIT" none none w3 with ⟨_ | _, w4⟩
      · rcases hr : d.execute conn "ROLLBACK" none none w4 with ⟨_ | _, w5⟩ <;>
        simp [transact, Eff.run, Eff.tryFinally, Eff.tryCatch, bind, Eff.andThen, pure,
          Eff.ret, Eff.throw, awaitGetConnection, awaitExecute, awaitFn, connClose,
          Call.isClose, hconn, hb, hf, hc, hr]
      · simp [transact, Eff.run, Eff.tryFinally, Eff.tryCatch, bind, Eff.andThen, pure,
          Eff.ret, Eff.throw, awaitGetConnection, awaitExecute, awaitFn, connClose,
          Call.isClose, hconn, hb, hf, hc]

theorem transact_close_once_last_witness :
    ((transact (scriptedDriver [("BEGIN", Thrown.external 3 "ORA-03114"),
        ("ROLLBACK", Thrown.external 4 "ORA-03114")]) insertWork).run
          ([], [])).2.2.filter Call.isClose = [Call.close 7] ∧
    ((transact (scriptedDriver [("BEGIN", Thrown.external 3 "ORA-03114"),
        ("ROLLBACK", Thrown.external 4 "ORA-03114")]) insertWork).run
          ([], [])).2.2.getLast? = some (Call.close 7) :=
  transact_close_once_last (scriptedDriver [("BEGIN", Thrown.external 3 "ORA-03114"),
    ("ROLLBACK", Thrown.external 4 "ORA-03114")]) insertWork [] [] 7 rfl

/-- C5, as stated, fails: the unit of work throws error 1, `ROLLBACK` then throws
error 5, and `transact` rejects with error 5, not with error 1. -/
theorem transact_rollback_failure_replaces_original :
    failingWork 7 ["BEGIN"] =
      (.error (Thrown.external 1 "ORA-00001: unique constraint violated"), ["BEGIN"]) ∧
    (scriptedDriver [("ROLLBACK", Thrown.external 5 "ORA-03135")]).execute 7 "ROLLBACK"
      none none ["BEGIN"] =
      (.error (Thrown.external 5 "ORA-03135"), ["BEGIN", "ROLLBACK"]) ∧
    ((transact (scriptedDriver [("ROLLBACK", Thrown.external 5 "ORA-03135")])
      failingWork).run ([], [])).1 = .error (Thrown.external 5 "ORA-03135") ∧
    ((transact (scriptedDriver [("ROLLBACK", Thrown.external 5 "ORA-03135")])
      failingWork).run ([], [])).1 ≠
        .error (Thrown.external 1 "ORA-00001: unique constraint violated") := by
  refine ⟨rfl, rfl, rfl, ?_⟩
  intro h
  have h2 : (Except.error (Thrown.external 5 "ORA-03135") : Except Thrown Nat) =
      .error (Thrown.external 1 "ORA-00001: unique constraint violated") := h
  injection h2 with h3
  injection h3 with h4 _
  exact absurd h4 (by decide)

/-- C5, amended. When `getConnection` and `BEGIN` succeed, then `fn(conn)` fails with
`e`, or `fn(conn)` succeeds and `COMMIT` fails with `e`, and `ROLLBACK` fails with `r`:
`transact` rejects with `r`, the error of the rollback, after having called `close`
right after the failed `ROLLBACK`. -/
theorem transact_rollback_failure_surfaces (d : Driver σ ρ) (fn : UnitOfWork σ ρ)
    (w0 w1 w2 w3 w4 : σ) (conn : Nat) (b : ρ) (e r : Thrown)
    (hconn : d.getConnection w0 = (.ok conn, w1))
    (hbegin : d.execute conn "BEGIN" none none w1 = (.ok b, w2))
    (hfail : fn conn w2 = (.error e, w3) ∨
      ∃ v w, fn conn w2 = (.ok v, w) ∧ d.execute conn "COMMIT" none none w = (.error e, w3))
    (hrollback : d.execute conn "ROLLBACK" none none w3 = (.error r, w4)) :
    ∃ failed : List Call,
      (failed = [Call.fn conn] ∨
        failed = [Call.fn conn, Call.execute conn "COMMIT" none none]) ∧
      (transact d fn).run (w0, []) =
        (.error r, (d.close conn w4,
          [Call.getConnection, Call.execute conn "BEGIN" none none] ++ failed ++
            [Call.execute conn "ROLLBACK" none none, Call.close conn])) := by
  rcases hfail with hfn | ⟨v, w, hfn, hcommit⟩
  · refine ⟨_, Or.inl rfl, ?_⟩
    simp [transact, Eff.run, Eff.tryFinally, Eff.tryCatch, bind, Eff.andThen, Eff.throw,
      awaitGetConnection, awaitExecute, awaitFn, connClose, hconn, hbegin, hfn, hrollback]
  · refine ⟨_, Or.inr rfl, ?_⟩
    simp [transact, Eff.run, Eff.tryFinally, Eff.tryCatch, bind, Eff.andThen, Eff.throw,
      awaitGetConnection, awaitExecute, awaitFn, connClose, hconn, hbegin, hfn, hcommit,
      hrollback]

theorem transact_rollback_failure_surfaces_witness :
    ∃ failed : List Call,
      (failed = [Call.fn 7] ∨ failed = [Call.fn 7, Call.execute 7 "COMMIT" none none]) ∧
      (transact (scriptedDriver [("COMMIT", Thrown.external 6 "ORA-02091"),
          ("ROLLBACK", Thrown.external 5 "ORA-03135")]) insertWork).run ([], []) =
        (.error (Thrown.external 5 "ORA-03135"),
          (["BEGIN", "INSERT", "COMMIT", "ROLLBACK", "close"],
            [Call.getConnection, Call.execute 7 "BEGIN" none none] ++ failed ++
              [Call.execute 7 "ROLLBACK" none none, Call.close 7])) :=
  transact_rollback_failure_surfaces
    (scriptedDriver [("COMMIT", Thrown.external 6 "ORA-02091"),
      ("ROLLBACK", Thrown.external 5 "ORA-03135")]) insertWork
    [] [] ["BEGIN"] ["BEGIN", "INSERT", "COMMIT"] ["BEGIN", "INSERT", "COMMIT", "ROLLBACK"]
    7 0 (Thrown.external 6 "ORA-02091") (Thrown.external 5 "ORA-03135")
    rfl rfl (Or.inr ⟨42, ["BEGIN", "INSERT"], rfl, rfl⟩) rfl

/-- C9, as stated, fails: `execute` throws error 2 and `query` rejects with that very
error, the bare value `execute` threw, with nothing wrapped around it. -/
theorem query_execute_error_is_bare :
    (scriptedDriver [("SELECT 1 FROM DUAL", Thrown.external 2 "ORA-03113")]).execute 7
      "SELECT 1 FROM DUAL" (some []) (some []) [] =
      (.error (Thrown.external 2 "ORA-03113"), ["SELECT 1 FROM DUAL"]) ∧
    ((query (scriptedDriver [("SELECT 1 FROM DUAL", Thrown.external 2 "ORA-03113")])
        "SELECT 1 FROM DUAL" none none).run ([], [])).1 =
      .error (Thrown.external 2 "ORA-03113") :=
  ⟨rfl, rfl⟩

/-- C9, amended. An error raised by `getConnection` reaches the caller of `query`
unchanged, with no call made on any connection; an error raised by `conn.execute` reaches
the caller unchanged too, after `conn.close()` has been called. -/
theorem query_errors_unchanged (d : Driver σ ρ) (sql : String) (values : Option Binds)
    (options : Option ExecOptions) (w0 w1 : σ) (e : Thrown) :
    (d.getConnection w0 = (.error e, w1) →
      (query d sql values options).run (w0, []) = (.error e, (w1, [Call.getConnection]))) ∧
    (∀ (conn : Nat) (w2 : σ), d.getConnection w0 = (.ok conn, w1) →
      d.execute conn sql (some (values.getD [])) (some (options.getD [])) w1 =
        (.error e, w2) →
      (query d sql values options).run (w0, []) =
        (.error e, (d.close conn w2,
          [Call.getConnection,
           Call.execute conn sql (some (values.getD [])) (some (options.getD [])),
           Call.close conn]))) := by
  constructor
  · intro hconn
    simp [query, Eff.run, bind, Eff.andThen, awaitGetConnection, hconn]
  · intro conn w2 hconn hexec
    simp [query, Eff.run, Eff.tryFinally, bind, Eff.andThen, pure, Eff.ret,
      awaitGetConnection, awaitExecute, connClose, hconn, hexec]

theorem query_errors_unchanged_witness :
    (query exhaustedDriver "SELECT 1 FROM DUAL" none none).run ([], []) =
      (.error (Thrown.external 8 "NJS-040: connection request timeout"),
        ([], [Call.getConnection])) ∧
    (query (scriptedDriver [("SELECT 1 FROM DUAL", Thrown.external 2 "ORA-03113")])
        "SELECT 1 FROM DUAL" none none).run ([], []) =
      (.error (Thrown.external 2 "ORA-03113"),
        (["SELECT 1 FROM DUAL", "close"],
         [Call.getConnection, Call.execute 7 "SELECT 1 FROM DUAL" (some []) (some []),
          Call.close 7])) :=
  ⟨(query_errors_unchanged exhaustedDriver "SELECT 1 FROM DUAL" none none [] []
      (Thrown.external 8 "NJS-040: connection request timeout")).1 rfl,
   (query_errors_unchanged
      (scriptedDriver [("SELECT 1 FROM DUAL", Thrown.external 2 "ORA-03113")])
      "SELECT 1 FROM DUAL" none none [] [] (Thrown.external 2 "ORA-03113")).2
      7 ["SELECT 1 FROM DUAL"] rfl rfl⟩

end ExecutionLayerProofs

section RegistrationProofs

variable {σ : Type}

/-- C10. On an instance without `oracle` decoration, `decorateFastifyInstance` called
with `options.name` equal to one of the keys `getConnection`, `pool`, `query`, `transact`,
`db` rejects with the name-taken error, after `fastify.decorate('oracle', oracle)` has
been carried out and with no `onClose` hook added; a registration through
`fastifyOracleDB` with a pool as `options.client` does the same. -/
theorem own_key_name_rejected (db : Oracledb σ) (pool : Nat) (options : Options)
    (s : RegState σ) (n : String)
    (hfresh : s.fastify.oracle = none) (hname : options.name = some n)
    (hkey : n ∈ oracleKeys) :
    (decorateFastifyInstance pool options).run s =
      (.error (nameTaken n),
        { s with
          fastify := { oracle := some { pool := pool, named := [] },
                       onClose := s.fastify.onClose }
          calls := s.calls ++ [RegCall.decorate pool] }) ∧
    (options.client = some (Client.pool pool) →
      (fastifyOracleDB db options).run s =
        (.error (nameTaken n),
          { s with
            fastify := { oracle := some { pool := pool, named := [] },
                         onClose := s.fastify.onClose }
            calls := s.calls ++ [RegCall.decorate pool] })) := by
  have hdec : (decorateFastifyInstance pool options).run s =
      (.error (nameTaken n),
        { s with
          fastify := { oracle := some { pool := pool, named := [] },
                       onClose := s.fastify.onClose }
          calls := s.calls ++ [RegCall.decorate pool] }) := by
    simp only [oracleKeys, List.mem_cons, List.mem_singleton, List.not_mem_nil, or_false]
      at hkey
    rcases hkey with h | h | h | h | h <;> subst h <;>
    simp [decorateFastifyInstance, Eff.run, bind, Eff.andThen, pure, Eff.ret, Eff.throw,
      readOracle, fastifyDecorate, assignNamed, fastifyAddHook, truthy, hname, hfresh,
      OracleObject.hasTruthy, oracleKeys]
  refine ⟨hdec, ?_⟩
  intro hclient
  simpa [fastifyOracleDB, hclient, Eff.run] using hdec

theorem own_key_name_rejected_witness :
    (decorateFastifyInstance 1
        { noOptions with name := some "pool", client := some (Client.pool 1) }).run
        (freshState 0) =
      (.error (nameTaken "pool"),
        { world := 0
          fastify := { oracle := some { pool := 1, named := [] }, onClose := [] }
          calls := [RegCall.decorate 1] }) ∧
    (fastifyOracleDB scriptedOracledb
        { noOptions with name := some "pool", client := some (Client.pool 1) }).run
        (freshState 0) =
      (.error (nameTaken "pool"),
        { world := 0
          fastify := { oracle := some { pool := 1, named := [] }, onClose := [] }
          calls := [RegCall.decorate 1] }) :=
  ⟨(own_key_name_rejected scriptedOracledb 1
      { noOptions with name := some "pool", client := some (Client.pool 1) } (freshState 0)
      "pool" rfl rfl (by decide)).1,
   (own_key_name_rejected scriptedOracledb 1
      { noOptions with name := some "pool", client := some (Client.pool 1) } (freshState 0)
      "pool" rfl rfl (by decide)).2 rfl⟩

/-- A key that is paired with a value in an association list is found by `lookup`. -/
theorem lookup_isSome_of_mem (l : List (String × Nat)) (n : String) (p : Nat)
    (h : (n, p) ∈ l) : (l.lookup n).isSome = true := by
  induction l with
  | nil => simp at h
  | cons x xs ih =>
    rcases x with ⟨k, v⟩
    by_cases hk : n = k
    · subst hk
      simp [List.lookup]
    · have hne : (n == k) = false := by simpa using hk
      have hmem : (n, p) ∈ xs := by
        rcases List.mem_cons.1 h with h1 | h1
        · exact absurd (congrArg Prod.fst h1) hk
        · exact h1
      simp [List.lookup, hne, ih hmem]

/-- What `decorateFastifyInstance` leaves behind: on success one more hook, for `pool`,
and `pool` reachable under the name (or as the decoration itself); on failure no hook. -/
theorem decorate_outcome (pool : Nat) (options : Options) (s : RegState σ) :
    (((decorateFastifyInstance pool options).run s).1 = .ok () →
      ∃ o, ((decorateFastifyInstance pool options).run s).2.fastify.onClose =
          s.fastify.onClose ++ [{ pool := pool, drainTime := options.drainTime }] ∧
        ((decorateFastifyInstance pool options).run s).2.fastify.oracle = some o ∧
        (if truthy options.name then (options.name.getD "", pool) ∈ o.named
         else o = { pool := pool, named := [] })) ∧
    (∀ e, ((decorateFastifyInstance pool options).run s).1 = .error e →
      ((decorateFastifyInstance pool options).run s).2.fastify.onClose =
        s.fastify.onClose) := by
  by_cases hn : truthy options.name = true
  · rcases ho : s.fastify.oracle with _ | o
    · by_cases hk : (({ pool := pool, named := [] } : OracleObject).hasTruthy
          (options.name.getD "")) = true
      · simp [decorateFastifyInstance, Eff.run, bind, Eff.andThen, pure, Eff.ret,
          Eff.throw, readOracle, fastifyDecorate, assignNamed, fastifyAddHook, hn, ho, hk]
      · simp [decorateFastifyInstance, Eff.run, bind, Eff.andThen, pure, Eff.ret,
          Eff.throw, readOracle, fastifyDecorate, assignNamed, fastifyAddHook, hn, ho, hk]
    · by_cases hk : (o.hasTruthy (options.name.getD "")) = true
      · simp [decorateFastifyInstance, Eff.run, bind, Eff.andThen, pure, Eff.ret,
          Eff.throw, readOracle, fastifyDecorate, assignNamed, fastifyAddHook, hn, ho, hk]
      · simp [decorateFastifyInstance, Eff.run, bind, Eff.andThen, pure, Eff.ret,
          Eff.throw, readOracle, fastifyDecorate, assignNamed, fastifyAddHook, hn, ho, hk]
  · rcases ho : s.fastify.oracle with _ | o <;>
    simp [decorateFastifyInstance, Eff.run, bind, Eff.andThen, pure, Eff.ret,
      Eff.throw, readOracle, fastifyDecorate, assignNamed, fastifyAddHook, hn, ho]

/-- Every run of `fastifyOracleDB` either throws before it touches the fastify instance
or ends as a run of `decorateFastifyInstance` from a state with the same instance. -/
theorem fastifyOracleDB_cases (db : Oracledb σ) (options : Options) (s : RegState σ)
    (P : Except Thrown Unit × RegState σ → Prop)
    (herr : ∀ e s1, s1.fastify = s.fastify → P (.error e, s1))
    (hdec : ∀ p s1, s1.fastify = s.fastify →
      P ((decorateFastifyInstance p options).run s1)) :
    P ((fastifyOracleDB db options).run s) := by
  rcases hc : options.client with _ | (p | _)
  · by_cases ha : truthy options.poolAlias = true
    · rcases hg : db.getPool (options.poolAlias.getD "") s.world with ⟨e | p, w⟩
      · simp only [fastifyOracleDB, hc, ha, Eff.run, bind, Eff.andThen, Eff.tryCatch,
          awaitGetPool, hg, Eff.throw, if_true]
        exact herr _ _ rfl
      · simp only [fastifyOracleDB, hc, ha, Eff.run, bind, Eff.andThen, Eff.tryCatch,
          awaitGetPool, hg, Eff.throw, if_true]
        exact hdec _ _ rfl
    · have ha1 : truthy options.poolAlias = false := by simpa using ha
      rcases hp : options.pool with _ | attrs
      · simp only [fastifyOracleDB, hc, ha1, hp, Eff.run, bind, Eff.andThen, pure, Eff.ret, Eff.throw, awaitCreatePool, assignOutFormat, assignFetchAsString, if_true, if_false, Bool.false_eq_true]
        exact herr _ s rfl
      · by_cases hf : truthy options.outFormat = true
        · rcases hso : db.setOutFormat (db.upperMember (options.outFormat.getD "")) s.world
            with ⟨e | u, w1⟩
          · simp only [fastifyOracleDB, hc, ha1, hp, Eff.run, bind, Eff.andThen, pure, Eff.ret, Eff.throw, awaitCreatePool, assignOutFormat, assignFetchAsString, if_true, if_false, Bool.false_eq_true, hf, hso]
            exact herr _ _ rfl
          · rcases hfs : options.fetchAsString with _ | types
            · rcases hcp : db.createPool attrs w1 with ⟨e | p, w2⟩
              · simp only [fastifyOracleDB, hc, ha1, hp, Eff.run, bind, Eff.andThen, pure, Eff.ret, Eff.throw, awaitCreatePool, assignOutFormat, assignFetchAsString, if_true, if_false, Bool.false_eq_true, hf, hso, hfs, hcp]
                exact herr _ _ rfl
              · simp only [fastifyOracleDB, hc, ha1, hp, Eff.run, bind, Eff.andThen, pure, Eff.ret, Eff.throw, awaitCreatePool, assignOutFormat, assignFetchAsString, if_true, if_false, Bool.false_eq_true, hf, hso, hfs, hcp]
                exact hdec _ _ rfl
            · rcases hsf : db.setFetchAsString (types.map db.upperMember) w1
                with ⟨e | u, w2⟩
              · simp only [fastifyOracleDB, hc, ha1, hp, Eff.run, bind, Eff.andThen, pure, Eff.ret, Eff.throw, awaitCreatePool, assignOutFormat, assignFetchAsString, if_true, if_false, Bool.false_eq_true, hf, hso, hfs, hsf]
                exact herr _ _ rfl
              · rcases hcp : db.createPool attrs w2 with ⟨e | p, w3⟩
                · simp only [fastifyOracleDB, hc, ha1, hp, Eff.run, bind, Eff.andThen, pure, Eff.ret, Eff.throw, awaitCreatePool, assignOutFormat, assignFetchAsString, if_true, if_false, Bool.false_eq_true, hf, hso, hfs, hsf, hcp]
                  exact herr _ _ rfl
                · simp only [fastifyOracleDB, hc, ha1, hp, Eff.run, bind, Eff.andThen, pure, Eff.ret, Eff.throw, awaitCreatePool, assignOutFormat, assignFetchAsString, if_true, if_false, Bool.false_eq_true, hf, hso, hfs, hsf, hcp]
                  exact hdec _ _ rfl
        · have hf1 : truthy options.outFormat = false := by simpa using hf
          rcases hfs : options.fetchAsString with _ | types
          · rcases hcp : db.createPool attrs s.world with ⟨e | p, w2⟩
            · simp only [fastifyOracleDB, hc, ha1, hp, Eff.run, bind, Eff.andThen, pure, Eff.ret, Eff.throw, awaitCreatePool, assignOutFormat, assignFetchAsString, if_true, if_false, Bool.false_eq_true, hf1, hfs, hcp]
              exact herr _ _ rfl
            · simp only [fastifyOracleDB, hc, ha1, hp, Eff.run, bind, Eff.andThen, pure, Eff.ret, Eff.throw, awaitCreatePool, assignOutFormat, assignFetchAsString, if_true, if_false, Bool.false_eq_true, hf1, hfs, hcp]
              exact hdec _ _ rfl
          · rcases hsf : db.setFetchAsString (types.map db.upperMember) s.world
              with ⟨e | u, w2⟩
            · simp only [fastifyOracleDB, hc, ha1, hp, Eff.run, bind, Eff.andThen, pure, Eff.ret, Eff.throw, awaitCreatePool, assignOutFormat, assignFetchAsString, if_true, if_false, Bool.false_eq_true, hf1, hfs, hsf]
              exact herr _ _ rfl
            · rcases hcp : db.createPool attrs w2 with ⟨e | p, w3⟩
              · simp only [fastifyOracleDB, hc, ha1, hp, Eff.run, bind, Eff.andThen, pure, Eff.ret, Eff.throw, awaitCreatePool, assignOutFormat, assignFetchAsString, if_true, if_false, Bool.false_eq_true, hf1, hfs, hsf, hcp]
                exact herr _ _ rfl
              · simp only [fastifyOracleDB, hc, ha1, hp, Eff.run, bind, Eff.andThen, pure, Eff.ret, Eff.throw, awaitCreatePool, assignOutFormat, assignFetchAsString, if_true, if_false, Bool.false_eq_true, hf1, hfs, hsf, hcp]
                exact hdec _ _ rfl
  · simp only [fastifyOracleDB, hc, Eff.run]
    exact hdec p s rfl
  · simp only [fastifyOracleDB, hc, Eff.run, Eff.throw]
    exact herr _ s rfl

/-- With a pool already registered under `n`, `decorateFastifyInstance` called with
`options.name = n` throws and leaves the state as it found it. -/
theorem decorate_duplicate (pool : Nat) (options : Options) (s : RegState σ) (n : String)
    (o : OracleObject) (p : Nat) (hreg : s.fastify.oracle = some o) (hn : (n, p) ∈ o.named)
    (hname : options.name = some n) :
    (decorateFastifyInstance pool options).run s =
      (.error (if n = "" then Thrown.created "fastify-oracle has already been registered"
        else nameTaken n), s) := by
  have hk : o.hasTruthy n = true := by
    simp [OracleObject.hasTruthy, lookup_isSome_of_mem o.named n p hn]
  by_cases h0 : n = ""
  · simp [decorateFastifyInstance, Eff.run, bind, Eff.andThen, pure, Eff.ret, Eff.throw,
      readOracle, truthy, hname, hreg, h0]
  · simp [decorateFastifyInstance, Eff.run, bind, Eff.andThen, pure, Eff.ret, Eff.throw,
      readOracle, truthy, hname, hreg, h0, hk]

/-- C6, as stated, fails: with both `options.client` (a pool) and `options.pool`
supplied, two sources, the registration succeeds and decorates the instance. -/
theorem two_sources_accepted :
    suppliedCount { noOptions with client := some (Client.pool 1),
                                   pool := some [("user", "scott")] } = 2 ∧
    ((fastifyOracleDB scriptedOracledb
        { noOptions with client := some (Client.pool 1),
                         pool := some [("user", "scott")] }).run (freshState 0)).1 =
      .ok () ∧
    ((fastifyOracleDB scriptedOracledb
        { noOptions with client := some (Client.pool 1),
                         pool := some [("user", "scott")] }).run (freshState 0)).2.fastify =
      { oracle := some { pool := 1, named := [] },
        onClose := [{ pool := 1, drainTime := none }] } :=
  ⟨rfl, rfl, rfl⟩

/-- C6, amended. With none of `options.client`, `options.poolAlias`, `options.pool`
supplied, `fastifyOracleDB` rejects with the must-supply-`options.pool` error and changes
nothing: no `getPool`, no `createPool`, no decoration.  With more than one supplied, the
first in the order `client`, `poolAlias`, `pool` is used and the others are ignored:
whatever `poolAlias` and `pool` hold, a pool given as `options.client` is the pool handed
to `decorateFastifyInstance`, with no call on the driver, and a client that is not a pool
is rejected; with no client, whatever `pool` holds, a truthy `options.poolAlias` is looked
up with `getPool` and the pool found is the one handed to `decorateFastifyInstance`, or
the failure of `getPool` is rethrown with its message prefixed.  In both cases the run is
the run of the options without the ignored sources. -/
theorem fastifyOracleDB_sources (db : Oracledb σ) (options : Options) (s : RegState σ) :
    (suppliedCount options = 0 →
      (fastifyOracleDB db options).run s =
        (.error (Thrown.created
          "fastify-oracle: must supply options.pool oracledb pool options"), s)) ∧
    (∀ p : Nat, options.client = some (Client.pool p) →
      (fastifyOracleDB db options).run s = (decorateFastifyInstance p options).run s) ∧
    (options.client = some Client.other →
      (fastifyOracleDB db options).run s =
        (.error (Thrown.created
          "fastify-oracle: supplied client must be an instance of oracledb.pool"), s)) ∧
    (∀ (p : Nat) (w : σ), options.client = none → truthy options.poolAlias = true →
      db.getPool (options.poolAlias.getD "") s.world = (.ok p, w) →
      (fastifyOracleDB db options).run s =
        (decorateFastifyInstance p options).run
          { s with
            world := w, calls := s.calls ++ [RegCall.getPool (options.poolAlias.getD "")] }) ∧
    (∀ (e : Thrown) (w : σ), options.client = none → truthy options.poolAlias = true →
      db.getPool (options.poolAlias.getD "") s.world = (.error e, w) →
      (fastifyOracleDB db options).run s =
        (.error (Thrown.created ("fastify-oracle: could not get pool alias - " ++ e.message)),
          { s with
            world := w, calls := s.calls ++ [RegCall.getPool (options.poolAlias.getD "")] })) ∧
    (options.client.isSome = true →
      (fastifyOracleDB db options).run s =
        (fastifyOracleDB db { options with poolAlias := none, pool := none }).run s) ∧
    (options.client = none → truthy options.poolAlias = true →
      (fastifyOracleDB db options).run s =
        (fastifyOracleDB db { options with pool := none }).run s) := by
  refine ⟨?_, ?_, ?_, ?_, ?_, ?_, ?_⟩
  · intro h0
    have hc : options.client = none := by
      rcases hc : options.client with _ | c
      · rfl
      · simp [suppliedCount, hc] at h0
    have ha : truthy options.poolAlias = false := by
      by_cases ha : truthy options.poolAlias = true
      · simp [suppliedCount, ha] at h0
      · simpa using ha
    have hp : options.pool = none := by
      rcases hp : options.pool with _ | c
      · rfl
      · simp [suppliedCount, hp] at h0
    simp [fastifyOracleDB, Eff.run, Eff.throw, hc, ha, hp]
  · intro p hc
    simp [fastifyOracleDB, Eff.run, hc]
  · intro hc
    simp [fastifyOracleDB, Eff.run, Eff.throw, hc]
  · intro p w hc ha hg
    simp [fastifyOracleDB, Eff.run, hc, ha, bind, Eff.andThen, Eff.tryCatch, awaitGetPool, hg]
  · intro e w hc ha hg
    simp [fastifyOracleDB, Eff.run, hc, ha, bind, Eff.andThen, Eff.tryCatch, awaitGetPool, hg,
      Eff.throw]
  · intro hc
    rcases hcl : options.client with _ | (p | _)
    · simp [hcl] at hc
    · simp [fastifyOracleDB, Eff.run, hcl, decorateFastifyInstance]
    · simp [fastifyOracleDB, Eff.run, hcl]
  · intro hc ha
    simp [fastifyOracleDB, Eff.run, hc, ha, decorateFastifyInstance]

theorem fastifyOracleDB_sources_witness :
    suppliedCount noOptions = 0 ∧
    (fastifyOracleDB scriptedOracledb noOptions).run (freshState 0) =
      (.error (Thrown.created
        "fastify-oracle: must supply options.pool oracledb pool options"),
        freshState 0) ∧
    (fastifyOracleDB scriptedOracledb
        { noOptions with client := some (Client.pool 1), poolAlias := some "main",
                         pool := some [("user", "scott")] }).run (freshState 0) =
      (decorateFastifyInstance 1
        { noOptions with client := some (Client.pool 1), poolAlias := some "main",
                         pool := some [("user", "scott")] }).run (freshState 0) ∧
    (fastifyOracleDB scriptedOracledb
        { noOptions with client := some Client.other,
                         pool := some [("user", "scott")] }).run (freshState 0) =
      (.error (Thrown.created
        "fastify-oracle: supplied client must be an instance of oracledb.pool"),
        freshState 0) ∧
    (fastifyOracleDB scriptedOracledb
        { noOptions with poolAlias := some "main",
                         pool := some [("user", "scott")] }).run (freshState 0) =
      (decorateFastifyInstance 1
        { noOptions with poolAlias := some "main", pool := some [("user", "scott")] }).run
        { freshState 0 with calls := [RegCall.getPool "main"] } ∧
    (fastifyOracleDB scriptedOracledb
        { noOptions with poolAlias := some "reports",
                         pool := some [("user", "scott")] }).run (freshState 0) =
      (.error (Thrown.created
        "fastify-oracle: could not get pool alias - NJS-047: pool alias not found"),
        { freshState 0 with calls := [RegCall.getPool "reports"] }) ∧
    (fastifyOracleDB scriptedOracledb
        { noOptions with client := some (Client.pool 1), poolAlias := some "main",
                         pool := some [("user", "scott")] }).run (freshState 0) =
      (fastifyOracleDB scriptedOracledb
        { noOptions with client := some (Client.pool 1) }).run (freshState 0) ∧
    (fastifyOracleDB scriptedOracledb
        { noOptions with poolAlias := some "main",
                         pool := some [("user", "scott")] }).run (freshState 0) =
      (fastifyOracleDB scriptedOracledb
        { noOptions with poolAlias := some "main" }).run (freshState 0) :=
  ⟨rfl,
   (fastifyOracleDB_sources scriptedOracledb noOptions (freshState 0)).1 rfl,
   (fastifyOracleDB_sources scriptedOracledb
      { noOptions with client := some (Client.pool 1), poolAlias := some "main",
                       pool := some [("user", "scott")] } (freshState 0)).2.1 1 rfl,
   (fastifyOracleDB_sources scriptedOracledb
      { noOptions with client := some Client.other,
                       pool := some [("user", "scott")] } (freshState 0)).2.2.1 rfl,
   (fastifyOracleDB_sources scriptedOracledb
      { noOptions with poolAlias := some "main",
                       pool := some [("user", "scott")] } (freshState 0)).2.2.2.1
      1 0 rfl rfl rfl,
   (fastifyOracleDB_sources scriptedOracledb
      { noOptions with poolAlias := some "reports",
                       pool := some [("user", "scott")] } (freshState 0)).2.2.2.2.1
      (Thrown.external 9 "NJS-047: pool alias not found") 0 rfl rfl rfl,
   (fastifyOracleDB_sources scriptedOracledb
      { noOptions with client := some (Client.pool 1), poolAlias := some "main",
                       pool := some [("user", "scott")] } (freshState 0)).2.2.2.2.2.1 rfl,
   (fastifyOracleDB_sources scriptedOracledb
      { noOptions with poolAlias := some "main",
                       pool := some [("user", "scott")] } (freshState 0)).2.2.2.2.2.2 rfl rfl⟩

/-- C7, as stated, fails: after a registration under the name "db1", a second
registration under "db1" with `options.pool` is rejected with the name-taken error only
after `oracledb.createPool` has been called for it: the call is the last one in the log,
and the driver has created two pools. -/
theorem duplicate_name_detected_after_createPool :
    ((fastifyOracleDB scriptedOracledb
        { noOptions with name := some "db1", pool := some [("user", "scott")] }).run
        (freshState 0)).1 = .ok () ∧
    ((fastifyOracleDB scriptedOracledb
        { noOptions with name := some "db1", pool := some [("user", "hr")] }).run
      ((fastifyOracleDB scriptedOracledb
        { noOptions with name := some "db1", pool := some [("user", "scott")] }).run
        (freshState 0)).2).1 = .error (nameTaken "db1") ∧
    ((fastifyOracleDB scriptedOracledb
        { noOptions with name := some "db1", pool := some [("user", "hr")] }).run
      ((fastifyOracleDB scriptedOracledb
        { noOptions with name := some "db1", pool := some [("user", "scott")] }).run
        (freshState 0)).2).2.calls =
      [RegCall.createPool [("user", "scott")], RegCall.decorate 100, RegCall.addHook 100 none,
       RegCall.createPool [("user", "hr")]] ∧
    ((fastifyOracleDB scriptedOracledb
        { noOptions with name := some "db1", pool := some [("user", "hr")] }).run
      ((fastifyOracleDB scriptedOracledb
        { noOptions with name := some "db1", pool := some [("user", "scott")] }).run
        (freshState 0)).2).2.world = 2 :=
  ⟨rfl, rfl, rfl, rfl⟩

/-- C7, amended. On an instance where a pool is registered under `n`, a registration with
`options.name = n` rejects and leaves the decoration and the hooks of the instance as
they were.  With `options.client` supplied it makes no call on the driver; with
`options.poolAlias` supplied (and no client) its only call is `getPool`.  With
`options.pool` as the only source, whatever `outFormat` and `fetchAsString` hold, the
registration first makes the assignments to `oracledb.outFormat` and
`oracledb.fetchAsString` the options ask for and then calls `createPool`: when these
succeed, the error for the name that is taken is raised after `createPool` has been
called, which is then the last call made; when one of them fails, the registration
rejects with that failure, that call being the last one made. -/
theorem duplicate_name_rejected (db : Oracledb σ) (options : Options) (s : RegState σ)
    (n : String) (o : OracleObject) (p : Nat)
    (hreg : s.fastify.oracle = some o) (hn : (n, p) ∈ o.named)
    (hname : options.name = some n) :
    (∃ e, ((fastifyOracleDB db options).run s).1 = .error e) ∧
    ((fastifyOracleDB db options).run s).2.fastify = s.fastify ∧
    (options.client.isSome = true →
      ((fastifyOracleDB db options).run s).2.calls = s.calls) ∧
    (options.client = none → truthy options.poolAlias = true →
      ((fastifyOracleDB db options).run s).2.calls =
        s.calls ++ [RegCall.getPool (options.poolAlias.getD "")]) ∧
    (∀ (attrs : PoolAttributes) (q : Nat) (w1 w2 w3 : σ),
      options.client = none → truthy options.poolAlias = false →
      options.pool = some attrs →
      (if truthy options.outFormat = true then
          db.setOutFormat (db.upperMember (options.outFormat.getD "")) s.world = (.ok (), w1)
        else w1 = s.world) →
      (match options.fetchAsString with
        | some types => db.setFetchAsString (types.map db.upperMember) w1 = (.ok (), w2)
        | none => w2 = w1) →
      db.createPool attrs w2 = (.ok q, w3) →
      (fastifyOracleDB db options).run s =
        (.error (if n = "" then Thrown.created "fastify-oracle has already been registered"
          else nameTaken n),
          { s with
            world := w3
            calls := s.calls ++
              (if truthy options.outFormat = true then
                [RegCall.setOutFormat (db.upperMember (options.outFormat.getD ""))]
              else []) ++
              (match options.fetchAsString with
              | some types => [RegCall.setFetchAsString (types.map db.upperMember)]
              | none => []) ++
              [RegCall.createPool attrs] })) ∧
    (∀ (attrs : PoolAttributes) (e : Thrown) (w1 w2 w3 : σ),
      options.client = none → truthy options.poolAlias = false →
      options.pool = some attrs →
      (if truthy options.outFormat = true then
          db.setOutFormat (db.upperMember (options.outFormat.getD "")) s.world = (.ok (), w1)
        else w1 = s.world) →
      (match options.fetchAsString with
        | some types => db.setFetchAsString (types.map db.upperMember) w1 = (.ok (), w2)
        | none => w2 = w1) →
      db.createPool attrs w2 = (.error e, w3) →
      (fastifyOracleDB db options).run s =
        (.error e,
          { s with
            world := w3
            calls := s.calls ++
              (if truthy options.outFormat = true then
                [RegCall.setOutFormat (db.upperMember (options.outFormat.getD ""))]
              else []) ++
              (match options.fetchAsString with
              | some types => [RegCall.setFetchAsString (types.map db.upperMember)]
              | none => []) ++
              [RegCall.createPool attrs] })) ∧
    (∀ (attrs : PoolAttributes) (e : Thrown) (w1 : σ),
      options.client = none → truthy options.poolAlias = false →
      options.pool = some attrs → truthy options.outFormat = true →
      db.setOutFormat (db.upperMember (options.outFormat.getD "")) s.world = (.error e, w1) →
      (fastifyOracleDB db options).run s =
        (.error e,
          { s with
            world := w1
            calls := s.calls ++
              [RegCall.setOutFormat (db.upperMember (options.outFormat.getD ""))] })) ∧
    (∀ (attrs : PoolAttributes) (types : List String) (e : Thrown) (w1 w2 : σ),
      options.client = none → truthy options.poolAlias = false →
      options.pool = some attrs →
      (if truthy options.outFormat = true then
          db.setOutFormat (db.upperMember (options.outFormat.getD "")) s.world = (.ok (), w1)
        else w1 = s.world) →
      options.fetchAsString = some types →
      db.setFetchAsString (types.map db.upperMember) w1 = (.error e, w2) →
      (fastifyOracleDB db options).run s =
        (.error e,
          { s with
            world := w2
            calls := s.calls ++
              (if truthy options.outFormat = true then
                [RegCall.setOutFormat (db.upperMember (options.outFormat.getD ""))]
              else []) ++
              [RegCall.setFetchAsString (types.map db.upperMember)] })) := by
  refine ⟨?_, ?_, ?_, ?_, ?_, ?_, ?_, ?_⟩
  · refine fastifyOracleDB_cases db options s (fun r => ∃ e, r.1 = .error e) ?_ ?_
    · intro e s1 _
      exact ⟨e, rfl⟩
    · intro q s1 hs1
      rw [decorate_duplicate q options s1 n o p (by rw [hs1]; exact hreg) hn hname]
      exact ⟨_, rfl⟩
  · refine fastifyOracleDB_cases db options s (fun r => r.2.fastify = s.fastify) ?_ ?_
    · intro e s1 hs1
      exact hs1
    · intro q s1 hs1
      rw [decorate_duplicate q options s1 n o p (by rw [hs1]; exact hreg) hn hname]
      exact hs1
  · intro hc
    rcases hcl : options.client with _ | (q | _)
    · simp [hcl] at hc
    · have hd := decorate_duplicate q options s n o p hreg hn hname
      simp only [Eff.run] at hd
      simp [fastifyOracleDB, Eff.run, hcl, hd]
    · simp [fastifyOracleDB, Eff.run, hcl, Eff.throw]
  · intro hc ha
    rcases hg : db.getPool (options.poolAlias.getD "") s.world with ⟨e | q, w⟩
    · simp [fastifyOracleDB, Eff.run, hc, ha, bind, Eff.andThen, Eff.tryCatch, awaitGetPool,
        hg, Eff.throw]
    · have hd := decorate_duplicate q options
        { s with world := w, calls := s.calls ++ [RegCall.getPool (options.poolAlias.getD "")] }
        n o p hreg hn hname
      simp only [Eff.run] at hd
      simp [fastifyOracleDB, Eff.run, hc, ha, bind, Eff.andThen, Eff.tryCatch, awaitGetPool,
        hg, hd]
  · intro attrs q w1 w2 w3 hc ha hp hso hsf hcp
    by_cases hf : truthy options.outFormat = true
    · rcases hfs : options.fetchAsString with _ | types
      · simp only [hf, if_true] at hso
        simp only [hfs] at hsf
        subst hsf
        simp [fastifyOracleDB, Eff.run, hc, ha, hp, hf, hfs, bind, Eff.andThen, pure, Eff.ret,
          awaitCreatePool, assignOutFormat, hso, hcp]
        exact decorate_duplicate q options _ n o p hreg hn hname
      · simp only [hf, if_true] at hso
        simp only [hfs] at hsf
        simp [fastifyOracleDB, Eff.run, hc, ha, hp, hf, hfs, bind, Eff.andThen, pure, Eff.ret,
          awaitCreatePool, assignOutFormat, assignFetchAsString, hso, hsf, hcp]
        exact decorate_duplicate q options _ n o p hreg hn hname
    · have hf1 : truthy options.outFormat = false := by simpa using hf
      simp only [hf1, Bool.false_eq_true, if_false] at hso
      subst hso
      rcases hfs : options.fetchAsString with _ | types
      · simp only [hfs] at hsf
        subst hsf
        simp [fastifyOracleDB, Eff.run, hc, ha, hp, hf1, hfs, bind, Eff.andThen, pure,
          Eff.ret, awaitCreatePool, hcp]
        exact decorate_duplicate q options _ n o p hreg hn hname
      · simp only [hfs] at hsf
        simp [fastifyOracleDB, Eff.run, hc, ha, hp, hf1, hfs, bind, Eff.andThen, pure,
          Eff.ret, awaitCreatePool, assignFetchAsString, hsf, hcp]
        exact decorate_duplicate q options _ n o p hreg hn hname
  · intro attrs e w1 w2 w3 hc ha hp hso hsf hcp
    by_cases hf : truthy options.outFormat = true
    · simp only [hf, if_true] at hso
      rcases hfs : options.fetchAsString with _ | types
      · simp only [hfs] at hsf
        subst hsf
        simp [fastifyOracleDB, Eff.run, hc, ha, hp, hf, hfs, bind, Eff.andThen, pure, Eff.ret,
          awaitCreatePool, assignOutFormat, hso, hcp]
      · simp only [hfs] at hsf
        simp [fastifyOracleDB, Eff.run, hc, ha, hp, hf, hfs, bind, Eff.andThen, pure, Eff.ret,
          awaitCreatePool, assignOutFormat, assignFetchAsString, hso, hsf, hcp]
    · have hf1 : truthy options.outFormat = false := by simpa using hf
      simp only [hf1, Bool.false_eq_true, if_false] at hso
      subst hso
      rcases hfs : options.fetchAsString with _ | types
      · simp only [hfs] at hsf
        subst hsf
        simp [fastifyOracleDB, Eff.run, hc, ha, hp, hf1, hfs, bind, Eff.andThen, pure,
          Eff.ret, awaitCreatePool, hcp]
      · simp only [hfs] at hsf
        simp [fastifyOracleDB, Eff.run, hc, ha, hp, hf1, hfs, bind, Eff.andThen, pure,
          Eff.ret, awaitCreatePool, assignFetchAsString, hsf, hcp]
  · intro attrs e w1 hc ha hp hf hso
    simp [fastifyOracleDB, Eff.run, hc, ha, hp, hf, bind, Eff.andThen, assignOutFormat, hso]
  · intro attrs types e w1 w2 hc ha hp hso hfs hsf
    by_cases hf : truthy options.outFormat = true
    · simp only [hf, if_true] at hso
      simp [fastifyOracleDB, Eff.run, hc, ha, hp, hf, hfs, bind, Eff.andThen, pure, Eff.ret,
        assignOutFormat, assignFetchAsString, hso, hsf]
    · have hf1 : truthy options.outFormat = false := by simpa using hf
      simp only [hf1, Bool.false_eq_true, if_false] at hso
      subst hso
      simp [fastifyOracleDB, Eff.run, hc, ha, hp, hf1, hfs, bind, Eff.andThen, pure, Eff.ret,
        assignFetchAsString, hsf]

theorem duplicate_name_rejected_witness :
    (∃ e, ((fastifyOracleDB scriptedOracledb
        { noOptions with name := some "db1", pool := some [("user", "hr")] }).run
        registeredDb1).1 = .error e) ∧
    ((fastifyOracleDB scriptedOracledb
        { noOptions with name := some "db1", pool := some [("user", "hr")] }).run
        registeredDb1).2.fastify = registeredDb1.fastify ∧
    ((fastifyOracleDB scriptedOracledb
        { noOptions with name := some "db1", client := some (Client.pool 5) }).run
        registeredDb1).2.calls = registeredDb1.calls ∧
    ((fastifyOracleDB scriptedOracledb
        { noOptions with name := some "db1", poolAlias := some "main" }).run
        registeredDb1).2.calls = registeredDb1.calls ++ [RegCall.getPool "main"] ∧
    (fastifyOracleDB strictOracledb
        { noOptions with name := some "db1", pool := some [("user", "hr")],
                         outFormat := some "object", fetchAsString := some ["number"] }).run registeredDb1 =
      (.error (nameTaken "db1"),
        { registeredDb1 with
          world := 2
          calls := [RegCall.setOutFormat (some 4002), RegCall.setFetchAsString [some 2010],
                    RegCall.createPool [("user", "hr")]] }) ∧
    (fastifyOracleDB strictOracledb
        { noOptions with name := some "db1", pool := some [] }).run registeredDb1 =
      (.error (Thrown.external 10 "NJS-007: invalid value for poolAttrs"),
        { registeredDb1 with calls := [RegCall.createPool []] }) ∧
    (fastifyOracleDB strictOracledb
        { noOptions with name := some "db1", pool := some [("user", "hr")],
                         outFormat := some "json" }).run registeredDb1 =
      (.error (Thrown.external 11 "NJS-004: invalid value for property outFormat"),
        { registeredDb1 with calls := [RegCall.setOutFormat none] }) ∧
    (fastifyOracleDB strictOracledb
        { noOptions with name := some "db1", pool := some [("user", "hr")],
                         fetchAsString := some ["clob"] }).run registeredDb1 =
      (.error (Thrown.external 12 "NJS-004: invalid value for property fetchAsString"),
        { registeredDb1 with calls := [RegCall.setFetchAsString [none]] }) :=
  ⟨(duplicate_name_rejected scriptedOracledb
      { noOptions with name := some "db1", pool := some [("user", "hr")] } registeredDb1
      "db1" { pool := 100, named := [("db1", 100)] } 100 rfl (by simp) rfl).1,
   (duplicate_name_rejected scriptedOracledb
      { noOptions with name := some "db1", pool := some [("user", "hr")] } registeredDb1
      "db1" { pool := 100, named := [("db1", 100)] } 100 rfl (by simp) rfl).2.1,
   (duplicate_name_rejected scriptedOracledb
      { noOptions with name := some "db1", client := some (Client.pool 5) } registeredDb1
      "db1" { pool := 100, named := [("db1", 100)] } 100 rfl (by simp) rfl).2.2.1 rfl,
   (duplicate_name_rejected scriptedOracledb
      { noOptions with name := some "db1", poolAlias := some "main" } registeredDb1
      "db1" { pool := 100, named := [("db1", 100)] } 100 rfl (by simp) rfl).2.2.2.1 rfl rfl,
   (duplicate_name_rejected strictOracledb
      { noOptions with name := some "db1", pool := some [("user", "hr")],
                         outFormat := some "object", fetchAsString := some ["number"] } registeredDb1
      "db1" { pool := 100, named := [("db1", 100)] } 100 rfl (by simp) rfl).2.2.2.2.1
      [("user", "hr")] 101 1 1 2 rfl rfl rfl rfl rfl rfl,
   (duplicate_name_rejected strictOracledb
      { noOptions with name := some "db1", pool := some [] } registeredDb1
      "db1" { pool := 100, named := [("db1", 100)] } 100 rfl (by simp) rfl).2.2.2.2.2.1
      [] (Thrown.external 10 "NJS-007: invalid value for poolAttrs") 1 1 1
      rfl rfl rfl rfl rfl rfl,
   (duplicate_name_rejected strictOracledb
      { noOptions with name := some "db1", pool := some [("user", "hr")],
                         outFormat := some "json" } registeredDb1
      "db1" { pool := 100, named := [("db1", 100)] } 100 rfl (by simp) rfl).2.2.2.2.2.2.1
      [("user", "hr")] (Thrown.external 11 "NJS-004: invalid value for property outFormat") 1
      rfl rfl rfl rfl rfl,
   (duplicate_name_rejected strictOracledb
      { noOptions with name := some "db1", pool := some [("user", "hr")],
                         fetchAsString := some ["clob"] } registeredDb1
      "db1" { pool := 100, named := [("db1", 100)] } 100 rfl (by simp) rfl).2.2.2.2.2.2.2
      [("user", "hr")] ["clob"]
      (Thrown.external 12 "NJS-004: invalid value for property fetchAsString") 1 1
      rfl rfl rfl rfl rfl rfl⟩

/-- C8. A registration that succeeds adds exactly one `onClose` hook, for the pool it
registered (the pool found under `options.name`, or the pool of the decoration when there
is no name) and with `options.drainTime`; a registration that fails adds none.  When
the hook runs it calls `pool.close(options.drainTime)` once, and calls `done` after that
call has resolved, and only then: if `close` rejects, `done` is not called. -/
theorem registration_adds_one_hook (db : Oracledb σ) (options : Options) (s : RegState σ) :
    (((fastifyOracleDB db options).run s).1 = .ok () →
      ∃ p o, ((fastifyOracleDB db options).run s).2.fastify.onClose =
          s.fastify.onClose ++ [{ pool := p, drainTime := options.drainTime }] ∧
        ((fastifyOracleDB db options).run s).2.fastify.oracle = some o ∧
        (if truthy options.name then (options.name.getD "", p) ∈ o.named
         else o = { pool := p, named := [] })) ∧
    (∀ e, ((fastifyOracleDB db options).run s).1 = .error e →
      ((fastifyOracleDB db options).run s).2.fastify.onClose = s.fastify.onClose) ∧
    (∀ (τ : Type) (poolClose : Nat → Option Nat → τ → Except Thrown Unit × τ)
        (h : OnCloseHook) (w : τ),
      (h.runHook poolClose).run (w, []) =
        match poolClose h.pool h.drainTime w with
        | (.ok _, w1) =>
          (.ok (), (w1, [HookCall.poolClose h.pool h.drainTime, HookCall.done]))
        | (.error e, w1) => (.error e, (w1, [HookCall.poolClose h.pool h.drainTime]))) := by
  refine ⟨?_, ?_, ?_⟩
  · refine fastifyOracleDB_cases db options s
      (fun r => r.1 = .ok () →
        ∃ p o, r.2.fastify.onClose =
            s.fastify.onClose ++ [{ pool := p, drainTime := options.drainTime }] ∧
          r.2.fastify.oracle = some o ∧
          (if truthy options.name then (options.name.getD "", p) ∈ o.named
           else o = { pool := p, named := [] })) ?_ ?_
    · intro e s1 _ h
      cases h
    · intro q s1 hs1 h
      obtain ⟨o, h1, h2, h3⟩ := (decorate_outcome q options s1).1 h
      exact ⟨q, o, by rw [h1, hs1], h2, h3⟩
  · refine fastifyOracleDB_cases db options s
      (fun r => ∀ e, r.1 = .error e → r.2.fastify.onClose = s.fastify.onClose) ?_ ?_
    · intro e s1 hs1 _ _
      exact congrArg Fastify.onClose hs1
    · intro q s1 hs1 e h
      rw [(decorate_outcome q options s1).2 e h, hs1]
  · intro τ poolClose h w
    rcases hp : poolClose h.pool h.drainTime w with ⟨e | u, w1⟩ <;>
    simp [OnCloseHook.runHook, Eff.run, bind, Eff.andThen, awaitPoolClose, callDone, hp]

theorem registration_adds_one_hook_witness :
    (∃ p o, ((fastifyOracleDB scriptedOracledb
          { noOptions with name := some "db1", pool := some [("user", "scott")],
                           drainTime := some 5 }).run (freshState 0)).2.fastify.onClose =
          (freshState 0).fastify.onClose ++ [{ pool := p, drainTime := some 5 }] ∧
        ((fastifyOracleDB scriptedOracledb
          { noOptions with name := some "db1", pool := some [("user", "scott")],
                           drainTime := some 5 }).run (freshState 0)).2.fastify.oracle =
          some o ∧
        (if truthy (some "db1") then ((some "db1").getD "", p) ∈ o.named
         else o = { pool := p, named := [] })) ∧
    ((fastifyOracleDB scriptedOracledb noOptions).run
        (freshState 0)).2.fastify.onClose = (freshState 0).fastify.onClose ∧
    (OnCloseHook.runHook { pool := 100, drainTime := some 5 } drainingClose).run ([], []) =
      (.ok (), ([some 5], [HookCall.poolClose 100 (some 5), HookCall.done])) :=
  ⟨(registration_adds_one_hook scriptedOracledb
      { noOptions with name := some "db1", pool := some [("user", "scott")],
                       drainTime := some 5 } (freshState 0)).1 rfl,
   (registration_adds_one_hook scriptedOracledb noOptions (freshState 0)).2.1
      (Thrown.created "fastify-oracle: must supply options.pool oracledb pool options") rfl,
   (registration_adds_one_hook scriptedOracledb noOptions (freshState 0)).2.2
      (List (Option Nat)) drainingClose { pool := 100, drainTime := some 5 } []⟩

end RegistrationProofs

end FastifyOracle
